import Mathlib

/-!
Verification of the rosibot weekly-maintenance bot (key-value-store variant,
`src/rosibot/bot.py`) and its message-template collaborator (`messages.py`).

The shallow embedding models one WeekKey's slice of the redis store as an
`Option String` (redis-py stores the integer state as its decimal byte
string; `none` is an absent key).  One scheduler-loop iteration and the
command handlers are embedded as pure functions from the store slice to a
new store slice plus the list of outbound sends; a Python exception that
escapes the handler is modelled as `Except.error`.
-/

/-- Decidable equality for `Except`, used to evaluate the embedded
handlers on concrete inputs. -/
instance {ε α : Type} [DecidableEq ε] [DecidableEq α] : DecidableEq (Except ε α) := fun
  | .ok a, .ok b =>
    if h : a = b then .isTrue (by rw [h])
    else .isFalse (by intro hh; cases hh; exact h rfl)
  | .ok _, .error _ => .isFalse (by intro h; cases h)
  | .error _, .ok _ => .isFalse (by intro h; cases h)
  | .error e, .error f =>
    if h : e = f then .isTrue (by rw [h])
    else .isFalse (by intro hh; cases hh; exact h rfl)

namespace Rosibot

/-- Source constant `BOT_COMMAND_DELIMITER = "!"` from bot.py. -/
def botCommandDelimiter : String := "!"

/-- Source constant `MONDAY = 0` from bot.py (Python `weekday()` numbering). -/
def MONDAY : Nat := 0

/-- Source constant `FRIDAY = 5` from bot.py (note: the source constant is 5 even though
Python's `weekday()` numbers Friday as 4; we keep the source's value). -/
def FRIDAY : Nat := 5

/-- Source constant `MAX_COMMAND_LENGTH = 128` from bot.py. -/
def maxCommandLength : Nat := 128

/-- The key derivation `get_cache_key(year, week) = f"{year}{week}"` from bot.py.  Year and
week are nonnegative in every call site (`datetime.today().year`,
`isocalendar().week`), so they are modelled as `Nat`; the f-string is the
concatenation of the two decimal representations. -/
def get_cache_key (year : Nat) (week : Nat) : String :=
  toString year ++ toString week

/-- The `PeriodicState` enum from bot.py: `IntEnum` with NONE = -1, FRESH = 0,
REMINDER_SENT = 1, DONE = 2. -/
inductive PeriodicState where
  | NONE
  | FRESH
  | REMINDER_SENT
  | DONE
deriving DecidableEq

/-- The integer value of each `PeriodicState` member, as in the source
`IntEnum`. -/
def PeriodicState.value : PeriodicState → Int
  | .NONE => -1
  | .FRESH => 0
  | .REMINDER_SENT => 1
  | .DONE => 2

/-- What redis-py persists for an integer state value: its decimal string
(the bytes later read back and decoded with utf-8). -/
def encodeState (s : PeriodicState) : String :=
  toString s.value

/-- Python's `str.strip()` (whitespace from both ends), implemented
structurally over the character list so that concrete inputs evaluate. -/
def pyStrip (s : String) : String :=
  String.mk (((s.data.dropWhile Char.isWhitespace).reverse.dropWhile
    Char.isWhitespace).reverse)

/-- Python's `str.startswith(pre)`, implemented structurally over the
character lists. -/
def pyStartsWith (s : String) (pre : String) : Bool :=
  pre.data.isPrefixOf s.data

/-- Decimal value of a digit run; `none` as soon as a non-digit appears. -/
def pyDigitsAux : List Char → Nat → Option Nat
  | [], acc => some acc
  | c :: cs, acc =>
    if c.isDigit then pyDigitsAux cs (acc * 10 + (c.toNat - 48)) else none

/-- Decimal value of a nonempty all-digit character list, else `none`. -/
def pyDigits? : List Char → Option Nat
  | [] => none
  | l => pyDigitsAux l 0

/-- Python's built-in `int(s)` on a decoded string, as used at
`int(cache_value.decode("utf-8"))`: strips surrounding whitespace, accepts
an optional sign followed by decimal digits, raises `ValueError` (here
`none`) otherwise.  (Underscore digit grouping, which Python also accepts,
is not modelled; no value the program writes contains an underscore.) -/
def pyIntOfString (s : String) : Option Int :=
  match (pyStrip s).data with
  | '-' :: rest => (pyDigits? rest).map (fun n => -(n : Int))
  | '+' :: rest => (pyDigits? rest).map (fun n => (n : Int))
  | t => (pyDigits? t).map (fun n => (n : Int))

/-- An outbound send, identified by which template the source fetched and
(for the Monday template) the ISO week number substituted for `{KW}`. -/
inductive Sent where
  /-- The template `messages.get_periodic_message("WEEKLY_MONDAY")` formatted with the
  week number. -/
  | monday (week : Nat)
  /-- The template `messages.get_periodic_message("WEEKLY_FRIDAY")`. -/
  | friday
  /-- the success template of `!erledigt`. -/
  | doneSuccess
  /-- the failure template of `!erledigt`. -/
  | doneFail
  /-- the success template of `!hilfe`. -/
  | help
deriving DecidableEq

/-- A Python exception escaping a handler.  `uncaughtValueError` is the
`ValueError` raised by `int(...)` on a malformed string: the source only
catches `TypeError`, so a `ValueError` propagates and kills the coroutine. -/
inductive CrashErr where
  | uncaughtValueError
deriving DecidableEq

/-- One iteration of the body of `RosiBot.periodic` (bot.py lines 155-197),
for a given weekday and week, acting on the current WeekKey's store slice.
Mirrors the source shape: one `cache.get`, then the `weekday == MONDAY`
block, then the `weekday == FRIDAY` block (both test the original read).
In the Friday `some` branch the source does
`state = int(cache_value.decode("utf-8"))` inside `try ... except
TypeError: return`; `int` raises `ValueError` on a malformed string, which
that clause does not catch, so the coroutine crashes (`Except.error`). -/
def periodicIter (weekday : Nat) (week : Nat) (store : Option String) :
    Except CrashErr (Option String × List Sent) :=
  let cacheValue := store
  let afterMonday : Option String × List Sent :=
    if weekday = MONDAY then
      match cacheValue with
      | some _ => (store, [])
      | none => (some (encodeState .FRESH), [Sent.monday week])
    else (store, [])
  if weekday = FRIDAY then
    match cacheValue with
    | some v =>
      match pyIntOfString v with
      | none => .error .uncaughtValueError
      | some st =>
        if st = PeriodicState.FRESH.value then
          .ok (some (encodeState .REMINDER_SENT), afterMonday.2 ++ [Sent.friday])
        else .ok afterMonday
    | none =>
      .ok (some (encodeState .REMINDER_SENT), afterMonday.2 ++ [Sent.monday week])
  else .ok afterMonday

/-- The handler `RosiBot._handle_maintenance_done` (bot.py lines 205-227), acting on
the current WeekKey's store slice.  `hasFail` records whether the
`!erledigt` command has a failure template configured (`fail` truthy).
The source defaults `state` to `FRESH.value`, overwrites it from the store
when an entry exists (crashing on an undecodable value, as in
`periodicIter`), then compares with `DONE`. -/
def handleMaintenanceDone (hasFail : Bool) (store : Option String) :
    Except CrashErr (Option String × List Sent) :=
  let stateRead : Except CrashErr Int :=
    match store with
    | none => .ok PeriodicState.FRESH.value
    | some v =>
      match pyIntOfString v with
      | some st => .ok st
      | none => .error .uncaughtValueError
  match stateRead with
  | .error e => .error e
  | .ok state =>
    if state ≠ PeriodicState.DONE.value then
      .ok (some (encodeState .DONE), [Sent.doneSuccess])
    else
      .ok (store, if hasFail then [Sent.doneFail] else [])

/-- The handler `RosiBot._handle_help` (bot.py lines 199-203): stateless, sends the
`!hilfe` success template (assumed nonempty, so the `if message:` truthiness
test passes). -/
def handleHelp (store : Option String) :
    Except CrashErr (Option String × List Sent) :=
  .ok (store, [Sent.help])

/-- The triggers of the spec's weekly state machine.  The scheduler feeds
`mondayTick` / `fridayTick` / `otherDayTick` according to the weekday
(`otherDayTick` is any weekday other than the source constants `MONDAY = 0`
and `FRIDAY = 5`; 2 is a representative); `doneCommand` is the `!erledigt`
handler. -/
inductive Trigger where
  | mondayTick
  | fridayTick
  | otherDayTick
  | doneCommand
deriving DecidableEq

/-- The evaluation of one trigger against one WeekKey's store slice:
ticks run one `periodic` iteration with the corresponding weekday, the
done command runs `_handle_maintenance_done`. -/
def step (hasFail : Bool) (week : Nat) (store : Option String) :
    Trigger → Except CrashErr (Option String × List Sent)
  | .mondayTick => periodicIter MONDAY week store
  | .fridayTick => periodicIter FRIDAY week store
  | .otherDayTick => periodicIter 2 week store
  | .doneCommand => handleMaintenanceDone hasFail store

/-- Run a sequence of triggers from a starting store slice, returning the
final slice, or `none` if some step crashed. -/
def run (hasFail : Bool) (week : Nat) (store : Option String) :
    List Trigger → Option (Option String)
  | [] => some store
  | t :: ts =>
    match step hasFail week store t with
    | .ok (s, _) => run hasFail week s ts
    | .error _ => none

/-- The spec's partial order on the states as persisted:
NONE (absent) < FRESH ("0") < REMINDER_SENT ("1") < DONE ("2"). -/
def rank : Option String → Nat
  | none => 0
  | some v => if v = "0" then 1 else if v = "1" then 2 else if v = "2" then 3 else 0

/-- The dispatcher `RosiBot._handle_command` (bot.py lines 119-125): look the trimmed text
up verbatim in the command registry, which after startup holds `!hilfe`
and `!erledigt`; unknown commands are logged and dropped. -/
def handleCommand (command : String) (hasFail : Bool) (store : Option String) :
    Except CrashErr (Option String × List Sent) :=
  if command = "!hilfe" then handleHelp store
  else if command = "!erledigt" then handleMaintenanceDone hasFail store
  else .ok (store, [])

/-- The entry point `RosiBot._handle` (bot.py lines 99-117): a text that does not start
with the delimiter is debug-logged and dropped; a prefixed text longer
than `MAX_COMMAND_LENGTH` is error-logged and dropped (no reply, no state
change); otherwise the stripped text is dispatched. -/
def handleText (text : String) (hasFail : Bool) (store : Option String) :
    Except CrashErr (Option String × List Sent) :=
  if pyStartsWith text botCommandDelimiter then
    if text.length > maxCommandLength then .ok (store, [])
    else handleCommand (pyStrip text) hasFail store
  else .ok (store, [])

/-- The error raised by `register_command` on a duplicate name (the source
raises `RuntimeError`; the spec calls it
`DuplicateCommandRegistrationError`). -/
inductive RegErr where
  | duplicate
deriving DecidableEq

/-- The decorator factory `register_command` (bot.py lines 70-80) acting on an explicit registry
(the source's module-level `command_registry` dict, modelled as an
association list; handlers are opaque and identified by a `Nat`).  The
duplicate check happens when the decorator factory runs, i.e. at import
(startup) time; on success the handler is bound to the command. -/
def register_command (registry : List (String × Nat)) (command : String)
    (func : Nat) : Except RegErr (List (String × Nat)) :=
  if command ∈ registry.map Prod.fst then .error .duplicate
  else .ok (registry ++ [(command, func)])

/-- A sequence of `register_command` registrations applied in order,
stopping at the first failure. -/
def registerAll (registry : List (String × Nat)) :
    List (String × Nat) → Except RegErr (List (String × Nat))
  | [] => .ok registry
  | (c, f) :: rest =>
    match register_command registry c f with
    | .ok registry' => registerAll registry' rest
    | .error e => .error e

/-- The class `Messages.CommandMessage` from messages.py: command name, success
template, optional failure template. -/
structure CommandMessage where
  command : String
  success : String
  fail : Option String
deriving DecidableEq

/-- The class `Messages.PeriodicMessage` from messages.py: a single template. -/
structure PeriodicMessage where
  message : String
deriving DecidableEq

/-- The `Messages` wrapper from messages.py after loading: the `periodic`
and `commands` dicts, modelled as association lists (dict keys are
unique; `List.lookup` returns the entry for a present key). -/
structure Messages where
  periodic : List (String × PeriodicMessage)
  commands : List (String × CommandMessage)

/-- The lookup failure raised by the getters (the source raises
`RuntimeError`; the spec's taxonomy names it `MessageNotFoundError`). -/
inductive MessageNotFoundError where
  | notFound (detail : String)
deriving DecidableEq

/-- The getter `Messages.get_periodic_message` (messages.py lines 67-81): return the
stored template when the id is a key of `periodic`, raise otherwise. -/
def get_periodic_message (m : Messages) (message_id : String) :
    Except MessageNotFoundError String :=
  match m.periodic.lookup message_id with
  | some pm => .ok pm.message
  | none => .error (.notFound ("No periodic message with index: " ++ message_id))

/-- The getter `Messages.get_command_message` (messages.py lines 83-98): return the
success and optional failure templates when the command is a key of
`commands`, raise otherwise. -/
def get_command_message (m : Messages) (command : String) :
    Except MessageNotFoundError (String × Option String) :=
  match m.commands.lookup command with
  | some cm => .ok (cm.success, cm.fail)
  | none => .error (.notFound ("Could not find messages for command " ++ command))

/-! ## Reachability infrastructure for the weekly state machine -/

/-- The store slices reachable from an absent entry: exactly the absent
entry and the three persisted encodings `"0"`, `"1"`, `"2"`. -/
def GoodStore (s : Option String) : Prop :=
  s = none ∨ s = some "0" ∨ s = some "1" ∨ s = some "2"

instance (s : Option String) : Decidable (GoodStore s) := by
  unfold GoodStore; infer_instance

/-- On a reachable store slice every trigger evaluates without crashing,
stays inside the reachable slices, never lowers the rank and keeps `"2"`
(DONE) fixed. -/
theorem step_good {s : Option String} (hs : GoodStore s) (hasFail : Bool)
    (week : Nat) (t : Trigger) :
    ∃ s2 msgs, step hasFail week s t = .ok (s2, msgs) ∧ GoodStore s2 ∧
      rank s ≤ rank s2 ∧ (s = some "2" → s2 = some "2") := by
  rcases hs with rfl | rfl | rfl | rfl <;> cases t <;>
    refine ⟨_, _, rfl, ?_, ?_, ?_⟩ <;> decide

/-- Running any trigger sequence from a reachable slice that does not
crash ends in a reachable slice. -/
theorem run_good {hasFail : Bool} {week : Nat} :
    ∀ {ts : List Trigger} {s s1 : Option String}, GoodStore s →
      run hasFail week s ts = some s1 → GoodStore s1 := by
  intro ts
  induction ts with
  | nil =>
    intro s s1 hs h
    simp [run] at h
    exact h ▸ hs
  | cons t ts ih =>
    intro s s1 hs h
    obtain ⟨s2, msgs, hstep, hg, -, -⟩ := step_good hs hasFail week t
    rw [run, hstep] at h
    exact ih hg h

/-! ## Claim theorems -/

/-- C1: for every sequence of triggers applied to a single WeekKey from
the absent state NONE, each further trigger evaluates without crashing,
the stored state never moves backward in the order
NONE < FRESH < REMINDER_SENT < DONE, and once the state is the DONE
encoding no trigger moves it to any other value. -/
theorem state_never_regresses (hasFail : Bool) (week : Nat)
    (ts : List Trigger) (s1 : Option String)
    (h : run hasFail week none ts = some s1) (t : Trigger) :
    ∃ s2 msgs, step hasFail week s1 t = .ok (s2, msgs) ∧
      rank s1 ≤ rank s2 ∧
      (s1 = some (encodeState .DONE) → s2 = some (encodeState .DONE)) := by
  obtain ⟨s2, msgs, hstep, -, hrank, hdone⟩ :=
    step_good (run_good (Or.inl rfl) h) hasFail week t
  exact ⟨s2, msgs, hstep, hrank, hdone⟩

/-- Witness for C1 at a concrete reachable state. -/
theorem state_never_regresses_witness :
    ∃ s2 msgs, step true 34 (some "0") Trigger.doneCommand = .ok (s2, msgs) ∧
      rank (some "0") ≤ rank s2 ∧
      (some "0" = some (encodeState .DONE) → s2 = some (encodeState .DONE)) :=
  state_never_regresses true 34 [Trigger.mondayTick] (some "0") (by decide)
    Trigger.doneCommand

/-- C2: from any of the non-DONE states (absent, FRESH, REMINDER_SENT) the
first DONE_COMMAND moves the state to the DONE encoding and emits exactly
the success message; a second DONE_COMMAND leaves the state DONE and emits
the failure message when a failure template is configured and nothing
otherwise. -/
theorem doneCommand_idempotent (hasFail : Bool) (week : Nat)
    (s : Option String)
    (hs : s = none ∨ s = some (encodeState .FRESH) ∨
      s = some (encodeState .REMINDER_SENT)) :
    ∃ s1, step hasFail week s .doneCommand = .ok (s1, [Sent.doneSuccess]) ∧
      s1 = some (encodeState .DONE) ∧
      step hasFail week s1 .doneCommand =
        .ok (s1, if hasFail then [Sent.doneFail] else []) := by
  rcases hs with rfl | rfl | rfl <;> exact ⟨some "2", rfl, rfl, rfl⟩

/-- Witness for C2 from the FRESH state. -/
theorem doneCommand_idempotent_witness :
    ∃ s1, step true 34 (some (encodeState .FRESH)) .doneCommand =
        .ok (s1, [Sent.doneSuccess]) ∧
      s1 = some (encodeState .DONE) ∧
      step true 34 s1 .doneCommand =
        .ok (s1, if true then [Sent.doneFail] else []) :=
  doneCommand_idempotent true 34 (some (encodeState .FRESH))
    (Or.inr (Or.inl rfl))

/-- C3: on the absent state a FRIDAY_TICK writes the REMINDER_SENT
encoding and emits the Monday template formatted with the week number
exactly once (the singleton send list). -/
theorem friday_recovery (hasFail : Bool) (week : Nat) :
    step hasFail week none .fridayTick =
      .ok (some (encodeState .REMINDER_SENT), [Sent.monday week]) := rfl

/-- C5: once an entry exists for the week (any stored value), a
MONDAY_TICK leaves the stored state unchanged and emits no message. -/
theorem monday_tick_idempotent (hasFail : Bool) (week : Nat) (v : String) :
    step hasFail week (some v) .mondayTick = .ok (some v, []) := rfl

/-- C4 (divergence witness): on a persisted value that is not a decimal
integer, both the Friday scheduler evaluation and the DONE_COMMAND handler
crash with the uncaught `ValueError` from `int(...)` — the source catches
only `TypeError` — instead of falling back to FRESH and continuing. -/
theorem malformed_state_crashes :
    step true 34 (some "abc") .fridayTick = .error .uncaughtValueError ∧
    step true 34 (some "abc") .doneCommand = .error .uncaughtValueError := by
  decide

/-- C6: an inbound text that starts with the command prefix and is longer
than `MAX_COMMAND_LENGTH = 128` characters is dropped by `_handle`: no
reply is sent and the stored state is unchanged. -/
theorem long_command_dropped (text : String) (hasFail : Bool)
    (store : Option String)
    (h1 : pyStartsWith text botCommandDelimiter = true)
    (h2 : text.length > maxCommandLength) :
    handleText text hasFail store = .ok (store, []) := by
  simp [handleText, h1, h2]

set_option maxRecDepth 4096 in
/-- Witness for C6: a 129-character string of delimiters. -/
theorem long_command_dropped_witness :
    handleText (String.mk (List.replicate 129 '!')) true none =
      .ok (none, []) :=
  long_command_dropped (String.mk (List.replicate 129 '!')) true none
    (by decide) (by decide)

/-- Helper for C7: a successful registration sequence preserves
distinctness of the registered command names. -/
theorem registerAll_nodup :
    ∀ (regs : List (String × Nat)) (acc registry : List (String × Nat)),
      (acc.map Prod.fst).Nodup → registerAll acc regs = .ok registry →
      (registry.map Prod.fst).Nodup := by
  intro regs
  induction regs with
  | nil =>
    intro acc registry hacc h
    simp [registerAll] at h
    exact h ▸ hacc
  | cons cf rest ih =>
    intro acc registry hacc h
    obtain ⟨c, f⟩ := cf
    rw [registerAll] at h
    by_cases hmem : c ∈ acc.map Prod.fst
    · rw [register_command, if_pos hmem] at h
      cases h
    · rw [register_command, if_neg hmem] at h
      refine ih (acc ++ [(c, f)]) registry ?_ h
      have hmap : (acc ++ [(c, f)]).map Prod.fst = acc.map Prod.fst ++ [c] := by
        simp
      rw [hmap, List.nodup_append]
      refine ⟨hacc, List.nodup_singleton c, ?_⟩
      intro a ha hc
      rw [List.mem_singleton] at hc
      exact hmem (hc ▸ ha)

/-- C7: registering a command name already present in the registry fails
with the duplicate-registration error at registration (startup) time, and
after any successful sequence of registrations starting from the empty
registry the registered command names are pairwise distinct, so each
command maps to exactly one handler. -/
theorem command_registry_unique :
    (∀ (registry : List (String × Nat)) (command : String) (func : Nat),
      command ∈ registry.map Prod.fst →
        register_command registry command func = .error .duplicate) ∧
    (∀ (regs registry : List (String × Nat)),
      registerAll [] regs = .ok registry →
        (registry.map Prod.fst).Nodup) := by
  constructor
  · intro registry command func h
    rw [register_command, if_pos h]
  · intro regs registry h
    exact registerAll_nodup regs [] registry (by simp) h

/-- Witness for C7: re-registering `!hilfe` is rejected. -/
theorem command_registry_unique_witness :
    register_command [("!hilfe", 0)] "!hilfe" 1 = .error .duplicate :=
  command_registry_unique.1 [("!hilfe", 0)] "!hilfe" 1 (by decide)

/-- C8: the template getters fail with `MessageNotFoundError` exactly when
the id/command is absent from the loaded message set; when present,
`get_periodic_message` returns the stored template and
`get_command_message` returns the success template paired with the
optional failure template. -/
theorem message_lookup_spec (m : Messages) (message_id command : String) :
    ((∃ e, get_periodic_message m message_id = .error e) ↔
      m.periodic.lookup message_id = none) ∧
    (∀ pm, m.periodic.lookup message_id = some pm →
      get_periodic_message m message_id = .ok pm.message) ∧
    ((∃ e, get_command_message m command = .error e) ↔
      m.commands.lookup command = none) ∧
    (∀ cm, m.commands.lookup command = some cm →
      get_command_message m command = .ok (cm.success, cm.fail)) := by
  refine ⟨?_, ?_, ?_, ?_⟩
  · cases h : m.periodic.lookup message_id <;>
      simp [get_periodic_message, h]
  · intro pm h
    simp [get_periodic_message, h]
  · cases h : m.commands.lookup command <;>
      simp [get_command_message, h]
  · intro cm h
    simp [get_command_message, h]

/-- Witness for C8 on a one-entry message set. -/
theorem message_lookup_spec_witness :
    get_periodic_message ⟨[("WEEKLY_MONDAY", ⟨"tmpl"⟩)], []⟩ "WEEKLY_MONDAY" =
      .ok "tmpl" :=
  (message_lookup_spec ⟨[("WEEKLY_MONDAY", ⟨"tmpl"⟩)], []⟩ "WEEKLY_MONDAY"
    "!hilfe").2.1 ⟨"tmpl"⟩ (by decide)

/-- Counterexample to C9 as stated: the key derivation concatenates the
two decimal representations, so the distinct pairs (1, 11) and (11, 1)
collide on the key "111". -/
theorem get_cache_key_not_injective :
    get_cache_key 1 11 = get_cache_key 11 1 ∧
      ((1, 11) : Nat × Nat) ≠ (11, 1) := by
  decide

/-- C9 (amended): for a fixed year, two distinct week numbers in the ISO
range (at most 53) derive distinct keys; full injectivity on pairs fails
as `get_cache_key_not_injective` shows. -/
theorem get_cache_key_inj_same_year (year w1 w2 : Nat) (h1 : w1 ≤ 53)
    (h2 : w2 ≤ 53) (h : get_cache_key year w1 = get_cache_key year w2) :
    w1 = w2 := by
  have hdata : (toString year).data ++ (toString w1).data =
      (toString year).data ++ (toString w2).data :=
    congrArg String.data h
  have hw : toString w1 = toString w2 := by
    apply congrArg String.mk (List.append_cancel_left hdata)
  have hb : ∀ a < 54, ∀ b < 54, toString a = toString b → a = b := by decide
  exact hb w1 (Nat.lt_succ_of_le h1) w2 (Nat.lt_succ_of_le h2) hw

/-- Witness for C9's amended statement. -/
theorem get_cache_key_inj_same_year_witness : (34 : Nat) = 34 :=
  get_cache_key_inj_same_year 2024 34 34 (by decide) (by decide) rfl

/-- C10: every store slice a trigger evaluation produces is either the
slice it read (no write) or carries one of the persisted encodings of
FRESH (0), REMINDER_SENT (1) or DONE (2); in particular the encoding of
NONE (-1) is never written, absence of the entry being its only
representation. -/
theorem writes_only_enum_values (hasFail : Bool) (week : Nat)
    (store : Option String) (t : Trigger) (s2 : Option String)
    (msgs : List Sent) (h : step hasFail week store t = .ok (s2, msgs)) :
    s2 = store ∨ s2 = some (encodeState .FRESH) ∨
      s2 = some (encodeState .REMINDER_SENT) ∨
      s2 = some (encodeState .DONE) := by
  cases t with
  | mondayTick =>
    cases store with
    | none =>
      simp [step, periodicIter, MONDAY, FRIDAY] at h
      obtain ⟨h1, -⟩ := h
      subst h1
      tauto
    | some v =>
      simp [step, periodicIter, MONDAY, FRIDAY] at h
      obtain ⟨h1, -⟩ := h
      subst h1
      tauto
  | fridayTick =>
    cases store with
    | none =>
      simp [step, periodicIter, MONDAY, FRIDAY] at h
      obtain ⟨h1, -⟩ := h
      subst h1
      tauto
    | some v =>
      cases hv : pyIntOfString v with
      | none => simp [step, periodicIter, MONDAY, FRIDAY, hv] at h
      | some st =>
        by_cases hst : st = PeriodicState.FRESH.value
        · simp [step, periodicIter, MONDAY, FRIDAY, hv, hst] at h
          obtain ⟨h1, -⟩ := h
          subst h1
          tauto
        · simp [step, periodicIter, MONDAY, FRIDAY, hv, hst] at h
          obtain ⟨h1, -⟩ := h
          subst h1
          tauto
  | otherDayTick =>
    cases store with
    | none =>
      simp [step, periodicIter, MONDAY, FRIDAY] at h
      obtain ⟨h1, -⟩ := h
      subst h1
      tauto
    | some v =>
      simp [step, periodicIter, MONDAY, FRIDAY] at h
      obtain ⟨h1, -⟩ := h
      subst h1
      tauto
  | doneCommand =>
    cases store with
    | none =>
      simp [step, handleMaintenanceDone, PeriodicState.value] at h
      obtain ⟨h1, -⟩ := h
      subst h1
      tauto
    | some v =>
      cases hv : pyIntOfString v with
      | none => simp [step, handleMaintenanceDone, hv] at h
      | some st =>
        by_cases hst : st = PeriodicState.DONE.value
        · simp [step, handleMaintenanceDone, hv, hst] at h
          obtain ⟨h1, -⟩ := h
          subst h1
          tauto
        · simp [step, handleMaintenanceDone, hv, hst] at h
          obtain ⟨h1, -⟩ := h
          subst h1
          tauto

/-- Witness for C10 at a concrete write. -/
theorem writes_only_enum_values_witness :
    (some "2" : Option String) = some "0" ∨
      some "2" = some (encodeState .FRESH) ∨
      some "2" = some (encodeState .REMINDER_SENT) ∨
      some "2" = some (encodeState .DONE) :=
  writes_only_enum_values true 34 (some "0") .doneCommand (some "2")
    [Sent.doneSuccess] (by decide)

end Rosibot
